import Mathlib

/-!
Shallow embedding of the bsky-audit-log tool (src/tool/main.go): the
exponential-backoff retry wrapper `retryWithBackoff`, the four cursor-based
pagination functions `following`, `followers`, `muted`, `blocked`, and the
output formatter `print`.

Modelling conventions:
* Durations are natural numbers of seconds (`initialBackoff = 2`,
  `apiCallDelay = 1`); `time.Sleep` is modelled by recording the slept
  duration in a trace rather than by real time passing.
* A Go `error` is the inductive `GoError`; the `*xrpc.Error` type assertion
  with `StatusCode == 429` becomes the `GoError.is429` test.
* The remote endpoint is modelled as a pure function of exactly the
  arguments that the Go code passes to it, plus an attempt index: the Go
  closure handed to `retryWithBackoff` takes no arguments but may observe
  different server states on different invocations, which the attempt index
  accounts for.
* The unbounded `for` loops of the pagination functions are given explicit
  fuel; a run whose fuel is exhausted yields `none` (the loop is still
  running), every claim is then stated about runs that produce `some`.
-/

/-- An account as the tool consumes it: the `Did` and `Handle` fields of
`bsky.ActorDefs_ProfileView`. -/
structure Account where
  did : String
  handle : String
deriving DecidableEq

/-- A Go `error` value as observed by this program: either an `*xrpc.Error`
with a status code, some other transport error, the wrapping error built by
`fmt.Errorf("%s failed after %d retries: %w", operationName, maxRetries,
lastErr)` on retry exhaustion, or Go's nil error (the initial value of the
`lastErr` variable). -/
inductive GoError where
  | xrpc (statusCode : Nat) (msg : String)
  | other (msg : String)
  | wrapped (operationName : String) (retries : Nat) (lastErr : GoError)
  | nilError
deriving DecidableEq

/-- The check `err.(*xrpc.Error); ok && xrpcErr.StatusCode == 429`. -/
def GoError.is429 : GoError → Bool
  | .xrpc statusCode _ => statusCode == 429
  | _ => false

/-- `maxRetries = 5` (main.go line 31). -/
def maxRetries : Nat := 5

/-- `initialBackoff = 2 * time.Second`, in seconds (main.go line 33). -/
def initialBackoff : Nat := 2

/-- `apiCallDelay = 1 * time.Second`, in seconds (main.go line 29). -/
def apiCallDelay : Nat := 1

deriving instance DecidableEq for Except

/-- Observable outcome of one `retryWithBackoff` invocation: the returned
`(result, error)` pair, the list of `time.Sleep` durations performed (in
order), and how many times the wrapped operation was invoked. -/
structure RetryResult (T : Type) where
  result : Except GoError T
  waits : List Nat
  calls : Nat
deriving DecidableEq

/-- The `for attempt := 0; attempt <= maxRetries; attempt++` loop of
`retryWithBackoff` (main.go lines 43-64), with `remaining` the number of
loop iterations still allowed, `attempt` the current attempt counter,
`backoff` the current backoff duration and `lastErr` the last error seen.
When `remaining` reaches 0 the loop exits and returns the wrapping error of
main.go line 66. -/
def retryAux {T : Type} (op : Nat → Except GoError T) (operationName : String) :
    Nat → Nat → Nat → GoError → RetryResult T
  | 0, _, _, lastErr => ⟨.error (.wrapped operationName maxRetries lastErr), [], 0⟩
  | remaining + 1, attempt, backoff, _ =>
    let waitsHere : List Nat := if 0 < attempt then [backoff] else []
    let backoff2 : Nat := if 0 < attempt then backoff * 2 else backoff
    match op attempt with
    | .ok v => ⟨.ok v, waitsHere, 1⟩
    | .error e =>
      if e.is429 then
        let o := retryAux op operationName remaining (attempt + 1) backoff2 e
        ⟨o.result, waitsHere ++ o.waits, o.calls + 1⟩
      else ⟨.error e, waitsHere, 1⟩

/-- `retryWithBackoff` (main.go lines 39-67): run `op` with exponential
backoff on 429 errors, starting from attempt 0 and `initialBackoff`, for at
most `maxRetries + 1` attempts. -/
def retryWithBackoff {T : Type} (op : Nat → Except GoError T)
    (operationName : String) : RetryResult T :=
  retryAux op operationName (maxRetries + 1) 0 initialBackoff .nilError





/-- Output of `app.bsky.graph.getFollows` as used here: the `Follows` and
`Cursor` fields of `bsky.GraphGetFollows_Output`. -/
structure GraphGetFollows_Output where
  follows : List Account
  cursor : Option String
deriving DecidableEq

/-- Output of `app.bsky.graph.getFollowers`: the `Followers` and `Cursor`
fields of `bsky.GraphGetFollowers_Output`. -/
structure GraphGetFollowers_Output where
  followers : List Account
  cursor : Option String
deriving DecidableEq

/-- Output of `app.bsky.graph.getMutes`: the `Mutes` and `Cursor` fields of
`bsky.GraphGetMutes_Output`. -/
structure GraphGetMutes_Output where
  mutes : List Account
  cursor : Option String
deriving DecidableEq

/-- Output of `app.bsky.graph.getBlocks`: the `Blocks` and `Cursor` fields
of `bsky.GraphGetBlocks_Output`. -/
structure GraphGetBlocks_Output where
  blocks : List Account
  cursor : Option String
deriving DecidableEq

/-- Observable outcome of one pagination run: the returned
`([]*bsky.ActorDefs_ProfileView, error)` pair (`none` while the loop is
still running, i.e. fuel ran out), the cursor argument passed to the remote
call at each page fetch in order, the item list delivered by each
successful page fetch in order, the number of remote invocations
(including retries) each page fetch performed, and the backoff wait
durations each page fetch slept through. -/
structure ListingRun where
  result : Option (Except GoError (List Account))
  cursors : List String
  pages : List (List Account)
  retryCalls : List Nat
  waits : List (List Nat)
deriving DecidableEq

/-- The `for` loop of `following` (main.go lines 150-178).  `fetch`
models `bsky.GraphGetFollows`, applied to the `did`, `cursor` and limit
arguments the code passes plus the attempt index; `pageNum` and `cursor`
are the loop variables, `acc` the `accounts` slice accumulated so far. -/
def followingLoop (fetch : String → String → Nat → Nat → Except GoError GraphGetFollows_Output)
    (did : String) : Nat → Nat → String → List Account → ListingRun
  | 0, _, _, _ => ⟨none, [], [], [], []⟩
  | fuel + 1, pageNum, cursor, acc =>
    let r := retryWithBackoff (fun attempt => fetch did cursor 100 attempt)
      ("GraphGetFollows page " ++ toString pageNum)
    match r.result with
    | .error e => ⟨some (.error e), [cursor], [], [r.calls], [r.waits]⟩
    | .ok fs =>
      let acc2 := acc ++ fs.follows
      match fs.cursor with
      | some c =>
        if c ≠ "" then
          if fs.follows = [] then ⟨some (.ok acc2), [cursor], [fs.follows], [r.calls], [r.waits]⟩
          else
            let o := followingLoop fetch did fuel (pageNum + 1) c acc2
            ⟨o.result, cursor :: o.cursors, fs.follows :: o.pages, r.calls :: o.retryCalls,
              r.waits :: o.waits⟩
        else ⟨some (.ok acc2), [cursor], [fs.follows], [r.calls], [r.waits]⟩
      | none => ⟨some (.ok acc2), [cursor], [fs.follows], [r.calls], [r.waits]⟩

/-- `following` (main.go lines 145-182): paginate `GraphGetFollows` from
the empty cursor, first page numbered 1. -/
def following (fetch : String → String → Nat → Nat → Except GoError GraphGetFollows_Output)
    (did : String) (fuel : Nat) : ListingRun :=
  followingLoop fetch did fuel 1 "" []

/-- The `for` loop of `followers` (main.go lines 189-217), structured
exactly like `followingLoop` but calling `bsky.GraphGetFollowers` and
reading its `Followers` field. -/
def followersLoop (fetch : String → String → Nat → Nat → Except GoError GraphGetFollowers_Output)
    (did : String) : Nat → Nat → String → List Account → ListingRun
  | 0, _, _, _ => ⟨none, [], [], [], []⟩
  | fuel + 1, pageNum, cursor, acc =>
    let r := retryWithBackoff (fun attempt => fetch did cursor 100 attempt)
      ("GraphGetFollowers page " ++ toString pageNum)
    match r.result with
    | .error e => ⟨some (.error e), [cursor], [], [r.calls], [r.waits]⟩
    | .ok fs =>
      let acc2 := acc ++ fs.followers
      match fs.cursor with
      | some c =>
        if c ≠ "" then
          if fs.followers = [] then ⟨some (.ok acc2), [cursor], [fs.followers], [r.calls], [r.waits]⟩
          else
            let o := followersLoop fetch did fuel (pageNum + 1) c acc2
            ⟨o.result, cursor :: o.cursors, fs.followers :: o.pages, r.calls :: o.retryCalls,
              r.waits :: o.waits⟩
        else ⟨some (.ok acc2), [cursor], [fs.followers], [r.calls], [r.waits]⟩
      | none => ⟨some (.ok acc2), [cursor], [fs.followers], [r.calls], [r.waits]⟩

/-- `followers` (main.go lines 184-221). -/
def followers (fetch : String → String → Nat → Nat → Except GoError GraphGetFollowers_Output)
    (did : String) (fuel : Nat) : ListingRun :=
  followersLoop fetch did fuel 1 "" []

/-- The `for` loop of `muted` (main.go lines 268-296).  Note that the Go
code calls `bsky.GraphGetMutes(ctx, c, currentCursor, 100)`: the remote
call receives only the cursor and limit, never the `did` argument of
`muted`, so `fetch` here is a function of cursor, limit and attempt only. -/
def mutedLoop (fetch : String → Nat → Nat → Except GoError GraphGetMutes_Output) :
    Nat → Nat → String → List Account → ListingRun
  | 0, _, _, _ => ⟨none, [], [], [], []⟩
  | fuel + 1, pageNum, cursor, acc =>
    let r := retryWithBackoff (fun attempt => fetch cursor 100 attempt)
      ("GraphGetMutes page " ++ toString pageNum)
    match r.result with
    | .error e => ⟨some (.error e), [cursor], [], [r.calls], [r.waits]⟩
    | .ok fs =>
      let acc2 := acc ++ fs.mutes
      match fs.cursor with
      | some c =>
        if c ≠ "" then
          if fs.mutes = [] then ⟨some (.ok acc2), [cursor], [fs.mutes], [r.calls], [r.waits]⟩
          else
            let o := mutedLoop fetch fuel (pageNum + 1) c acc2
            ⟨o.result, cursor :: o.cursors, fs.mutes :: o.pages, r.calls :: o.retryCalls,
              r.waits :: o.waits⟩
        else ⟨some (.ok acc2), [cursor], [fs.mutes], [r.calls], [r.waits]⟩
      | none => ⟨some (.ok acc2), [cursor], [fs.mutes], [r.calls], [r.waits]⟩

/-- `muted` (main.go lines 263-300): the Go function takes a `did`
parameter but never passes it to the remote call; the unused parameter is
kept to mirror the `runFunc` signature. -/
def muted (fetch : String → Nat → Nat → Except GoError GraphGetMutes_Output)
    (did : String) (fuel : Nat) : ListingRun :=
  mutedLoop fetch fuel 1 "" []

/-- The `for` loop of `blocked` (main.go lines 229-257).  As with `muted`,
the Go code calls `bsky.GraphGetBlocks(ctx, c, currentCursor, 100)` without
a target-account argument. -/
def blockedLoop (fetch : String → Nat → Nat → Except GoError GraphGetBlocks_Output) :
    Nat → Nat → String → List Account → ListingRun
  | 0, _, _, _ => ⟨none, [], [], [], []⟩
  | fuel + 1, pageNum, cursor, acc =>
    let r := retryWithBackoff (fun attempt => fetch cursor 100 attempt)
      ("GraphGetBlocks page " ++ toString pageNum)
    match r.result with
    | .error e => ⟨some (.error e), [cursor], [], [r.calls], [r.waits]⟩
    | .ok fs =>
      let acc2 := acc ++ fs.blocks
      match fs.cursor with
      | some c =>
        if c ≠ "" then
          if fs.blocks = [] then ⟨some (.ok acc2), [cursor], [fs.blocks], [r.calls], [r.waits]⟩
          else
            let o := blockedLoop fetch fuel (pageNum + 1) c acc2
            ⟨o.result, cursor :: o.cursors, fs.blocks :: o.pages, r.calls :: o.retryCalls,
              r.waits :: o.waits⟩
        else ⟨some (.ok acc2), [cursor], [fs.blocks], [r.calls], [r.waits]⟩
      | none => ⟨some (.ok acc2), [cursor], [fs.blocks], [r.calls], [r.waits]⟩

/-- `blocked` (main.go lines 224-261): like `muted`, the `id` parameter is
never passed to the remote call. -/
def blocked (fetch : String → Nat → Nat → Except GoError GraphGetBlocks_Output)
    (id : String) (fuel : Nat) : ListingRun :=
  blockedLoop fetch fuel 1 "" []

/-- The formatting loop of `print` (main.go lines 139-141): the sequence of
strings written to standard output, one `fmt.Printf("%s,%s\n", acc.Did,
acc.Handle)` emission per account, in order. -/
def printEmits (out : List Account) : List String :=
  out.map (fun acc => acc.did ++ "," ++ acc.handle ++ "\n")

/-- `print` (main.go lines 133-143) composed over the listing result: on
error the error is returned and nothing is emitted; on success the emitted
standard-output text is the concatenation of the per-account lines. -/
def printRun (run : Except GoError (List Account)) : Except GoError String :=
  match run with
  | .error err => .error err
  | .ok out => .ok (String.join (printEmits out))



/-- A page as the common shape behind the four `GraphGet*_Output`
structures: an item list and an optional continuation cursor. -/
structure Page where
  items : List Account
  cursor : Option String
deriving DecidableEq

/-- Map the success value of a `RetryResult`, keeping the error, the wait
trace and the call count. -/
def RetryResult.mapT {T U : Type} (f : T → U) (r : RetryResult T) : RetryResult U :=
  ⟨r.result.map f, r.waits, r.calls⟩

/-- View a `GraphGetFollows_Output` as a generic page: the items live in
the `Follows` field. -/
def GraphGetFollows_Output.toPage (o : GraphGetFollows_Output) : Page :=
  ⟨o.follows, o.cursor⟩

/-- View a `GraphGetFollowers_Output` as a generic page: the items live in
the `Followers` field. -/
def GraphGetFollowers_Output.toPage (o : GraphGetFollowers_Output) : Page :=
  ⟨o.followers, o.cursor⟩

/-- View a `GraphGetMutes_Output` as a generic page: the items live in the
`Mutes` field. -/
def GraphGetMutes_Output.toPage (o : GraphGetMutes_Output) : Page :=
  ⟨o.mutes, o.cursor⟩

/-- View a `GraphGetBlocks_Output` as a generic page: the items live in
the `Blocks` field. -/
def GraphGetBlocks_Output.toPage (o : GraphGetBlocks_Output) : Page :=
  ⟨o.blocks, o.cursor⟩

/-- The pagination pattern common to the four listing functions,
abstracted over the retry-wrapped page fetch `step` (given the page number
and the current cursor).  Each listing function is proved equal to an
instance of this scheme; they differ only in the `step` they plug in. -/
def paginate (step : Nat → String → RetryResult Page) :
    Nat → Nat → String → List Account → ListingRun
  | 0, _, _, _ => ⟨none, [], [], [], []⟩
  | fuel + 1, pageNum, cursor, acc =>
    let r := step pageNum cursor
    match r.result with
    | .error e => ⟨some (.error e), [cursor], [], [r.calls], [r.waits]⟩
    | .ok p =>
      let acc2 := acc ++ p.items
      match p.cursor with
      | some c =>
        if c ≠ "" then
          if p.items = [] then ⟨some (.ok acc2), [cursor], [p.items], [r.calls], [r.waits]⟩
          else
            let o := paginate step fuel (pageNum + 1) c acc2
            ⟨o.result, cursor :: o.cursors, p.items :: o.pages, r.calls :: o.retryCalls,
              r.waits :: o.waits⟩
        else ⟨some (.ok acc2), [cursor], [p.items], [r.calls], [r.waits]⟩
      | none => ⟨some (.ok acc2), [cursor], [p.items], [r.calls], [r.waits]⟩

/-- The retry-wrapped page fetch that `following` plugs into the common
pagination pattern. -/
def followingStep (fetch : String → String → Nat → Nat → Except GoError GraphGetFollows_Output)
    (did : String) (pageNum : Nat) (cursor : String) : RetryResult Page :=
  (retryWithBackoff (fun attempt => fetch did cursor 100 attempt)
    ("GraphGetFollows page " ++ toString pageNum)).mapT GraphGetFollows_Output.toPage

/-- The retry-wrapped page fetch that `followers` plugs into the common
pagination pattern. -/
def followersStep (fetch : String → String → Nat → Nat → Except GoError GraphGetFollowers_Output)
    (did : String) (pageNum : Nat) (cursor : String) : RetryResult Page :=
  (retryWithBackoff (fun attempt => fetch did cursor 100 attempt)
    ("GraphGetFollowers page " ++ toString pageNum)).mapT GraphGetFollowers_Output.toPage

/-- The retry-wrapped page fetch that `muted` plugs into the common
pagination pattern; the target account does not occur in it. -/
def mutedStep (fetch : String → Nat → Nat → Except GoError GraphGetMutes_Output)
    (pageNum : Nat) (cursor : String) : RetryResult Page :=
  (retryWithBackoff (fun attempt => fetch cursor 100 attempt)
    ("GraphGetMutes page " ++ toString pageNum)).mapT GraphGetMutes_Output.toPage

/-- The retry-wrapped page fetch that `blocked` plugs into the common
pagination pattern; the target account does not occur in it. -/
def blockedStep (fetch : String → Nat → Nat → Except GoError GraphGetBlocks_Output)
    (pageNum : Nat) (cursor : String) : RetryResult Page :=
  (retryWithBackoff (fun attempt => fetch cursor 100 attempt)
    ("GraphGetBlocks page " ++ toString pageNum)).mapT GraphGetBlocks_Output.toPage

/-- C2: if the remote call fails with a rate-limit (429) signal on the
first `K ≤ maxRetries` attempts and then succeeds, `retryWithBackoff`
returns the success result, and the wait durations it performs are
`initialBackoff, initialBackoff*2, ..., initialBackoff*2^(K-1)` — doubling
on each retry, with no wait before the first attempt. -/
theorem retryWithBackoff_rate_limited_then_success {T : Type}
    (op : Nat → Except GoError T) (nm : String) (K : Nat) (v : T)
    (hK : K ≤ maxRetries)
    (hfail : ∀ i, i < K → ∃ m, op i = .error (.xrpc 429 m))
    (hsucc : op K = .ok v) :
    (retryWithBackoff op nm).result = .ok v ∧
    (retryWithBackoff op nm).waits =
      (List.range K).map (fun i => initialBackoff * 2 ^ i) := by
  have hK5 : K ≤ 5 := by simpa [maxRetries] using hK
  interval_cases K
  · simp [retryWithBackoff, retryAux, hsucc]
  · obtain ⟨m0, h0⟩ := hfail 0 (by norm_num)
    simp [retryWithBackoff, retryAux, h0, hsucc, GoError.is429, initialBackoff,
      List.range_succ]
  · obtain ⟨m0, h0⟩ := hfail 0 (by norm_num)
    obtain ⟨m1, h1⟩ := hfail 1 (by norm_num)
    simp [retryWithBackoff, retryAux, h0, h1, hsucc, GoError.is429, initialBackoff,
      List.range_succ]
  · obtain ⟨m0, h0⟩ := hfail 0 (by norm_num)
    obtain ⟨m1, h1⟩ := hfail 1 (by norm_num)
    obtain ⟨m2, h2⟩ := hfail 2 (by norm_num)
    simp [retryWithBackoff, retryAux, h0, h1, h2, hsucc, GoError.is429, initialBackoff,
      List.range_succ]
  · obtain ⟨m0, h0⟩ := hfail 0 (by norm_num)
    obtain ⟨m1, h1⟩ := hfail 1 (by norm_num)
    obtain ⟨m2, h2⟩ := hfail 2 (by norm_num)
    obtain ⟨m3, h3⟩ := hfail 3 (by norm_num)
    simp [retryWithBackoff, retryAux, h0, h1, h2, h3, hsucc, GoError.is429,
      initialBackoff, List.range_succ]
  · obtain ⟨m0, h0⟩ := hfail 0 (by norm_num)
    obtain ⟨m1, h1⟩ := hfail 1 (by norm_num)
    obtain ⟨m2, h2⟩ := hfail 2 (by norm_num)
    obtain ⟨m3, h3⟩ := hfail 3 (by norm_num)
    obtain ⟨m4, h4⟩ := hfail 4 (by norm_num)
    simp [retryWithBackoff, retryAux, h0, h1, h2, h3, h4, hsucc, GoError.is429,
      initialBackoff, List.range_succ]

/-- Witness for C2 at `K = 3`: three 429 failures then success yields the
success result after waits `2, 4, 8`. -/
theorem retryWithBackoff_rate_limited_then_success_witness :
    (retryWithBackoff
      (fun n => if n < 3 then .error (.xrpc 429 "slow down") else (.ok 7 : Except GoError Nat))
      "GraphGetFollows page 1").result = .ok 7 ∧
    (retryWithBackoff
      (fun n => if n < 3 then .error (.xrpc 429 "slow down") else (.ok 7 : Except GoError Nat))
      "GraphGetFollows page 1").waits =
      (List.range 3).map (fun i => initialBackoff * 2 ^ i) :=
  retryWithBackoff_rate_limited_then_success
    (fun n => if n < 3 then .error (.xrpc 429 "slow down") else (.ok 7 : Except GoError Nat))
    "GraphGetFollows page 1" 3 7 (by norm_num [maxRetries])
    (fun i hi => ⟨"slow down", by interval_cases i <;> rfl⟩) (by decide)

/-- C3: if the remote call fails with a 429 rate-limit error on every
attempt, `retryWithBackoff` invokes it exactly `maxRetries + 1 = 6` times
and then fails with the wrapping error carrying the operation name, the
retry count `maxRetries = 5`, and the last underlying error (the one from
attempt 5), after waits `2, 4, 8, 16, 32`. -/
theorem retryWithBackoff_exhaustion {T : Type}
    (op : Nat → Except GoError T) (nm : String) (errf : Nat → GoError)
    (herr : ∀ n, n ≤ maxRetries → op n = .error (errf n))
    (h429 : ∀ n, n ≤ maxRetries → (errf n).is429 = true) :
    retryWithBackoff op nm =
      ⟨.error (.wrapped nm maxRetries (errf maxRetries)), [2, 4, 8, 16, 32],
        maxRetries + 1⟩ := by
  have e0 := herr 0 (by norm_num [maxRetries])
  have e1 := herr 1 (by norm_num [maxRetries])
  have e2 := herr 2 (by norm_num [maxRetries])
  have e3 := herr 3 (by norm_num [maxRetries])
  have e4 := herr 4 (by norm_num [maxRetries])
  have e5 := herr 5 (by norm_num [maxRetries])
  have f0 := h429 0 (by norm_num [maxRetries])
  have f1 := h429 1 (by norm_num [maxRetries])
  have f2 := h429 2 (by norm_num [maxRetries])
  have f3 := h429 3 (by norm_num [maxRetries])
  have f4 := h429 4 (by norm_num [maxRetries])
  have f5 := h429 5 (by norm_num [maxRetries])
  simp [retryWithBackoff, maxRetries, initialBackoff, retryAux, e0, e1, e2, e3, e4, e5,
    f0, f1, f2, f3, f4, f5]

/-- Witness for C3: an operation that always returns a 429 error is
invoked 6 times and the wrapping error names the operation, the 5 retries
and the last 429 error. -/
theorem retryWithBackoff_exhaustion_witness :
    retryWithBackoff (fun _ => (.error (.xrpc 429 "rate") : Except GoError Nat))
      "GraphGetFollows page 1" =
      ⟨.error (.wrapped "GraphGetFollows page 1" maxRetries (.xrpc 429 "rate")),
        [2, 4, 8, 16, 32], maxRetries + 1⟩ :=
  retryWithBackoff_exhaustion (fun _ => (.error (.xrpc 429 "rate") : Except GoError Nat))
    "GraphGetFollows page 1" (fun _ => .xrpc 429 "rate")
    (fun _ _ => rfl) (fun _ _ => rfl)

/-- C4: if the first invocation fails with an error that is not a 429
rate-limit signal, `retryWithBackoff` returns that very error after exactly
one invocation, with no retries and no waits. -/
theorem retryWithBackoff_non_rate_limit_fails_immediately {T : Type}
    (op : Nat → Except GoError T) (nm : String) (e : GoError)
    (h0 : op 0 = .error e) (h429 : e.is429 = false) :
    retryWithBackoff op nm = ⟨.error e, [], 1⟩ := by
  simp [retryWithBackoff, maxRetries, retryAux, h0, h429]

/-- Witness for C4: a first-attempt non-429 failure is returned unchanged,
with one call and an empty wait trace. -/
theorem retryWithBackoff_non_rate_limit_fails_immediately_witness :
    retryWithBackoff (fun _ => (.error (.other "boom") : Except GoError Nat))
      "GraphGetFollows page 1" = ⟨.error (.other "boom"), [], 1⟩ :=
  retryWithBackoff_non_rate_limit_fails_immediately
    (fun _ => (.error (.other "boom") : Except GoError Nat))
    "GraphGetFollows page 1" (.other "boom") rfl rfl

/-- Helper: whenever the `following` loop returns `ok`, the returned
account list is the starting accumulator followed by the concatenation of
all received pages' items, in fetch order. -/
theorem followingLoop_ok_append
    (fetch : String → String → Nat → Nat → Except GoError GraphGetFollows_Output)
    (did : String) :
    ∀ fuel pageNum cursor acc accs,
      (followingLoop fetch did fuel pageNum cursor acc).result = some (.ok accs) →
      accs = acc ++ (followingLoop fetch did fuel pageNum cursor acc).pages.flatten := by
  intro fuel
  induction fuel with
  | zero => intro pn cur acc accs h; simp [followingLoop] at h
  | succ f ih =>
    intro pn cur acc accs h
    cases hres : (retryWithBackoff (fun attempt => fetch did cur 100 attempt)
        ("GraphGetFollows page " ++ toString pn)).result with
    | error e => simp [followingLoop, hres] at h
    | ok fs =>
      cases hcur : fs.cursor with
      | none =>
        simp [followingLoop, hres, hcur] at h ⊢
        exact h.symm
      | some c =>
        by_cases hc : c = ""
        · simp [followingLoop, hres, hcur, hc] at h ⊢
          exact h.symm
        · by_cases hnil : fs.follows = []
          · simp [followingLoop, hres, hcur, hc, hnil] at h ⊢
            exact h.symm
          · have := ih (pn + 1) c (acc ++ fs.follows) accs
            simp [followingLoop, hres, hcur, hc, hnil] at h ⊢
            have h2 := this h
            simp [h2]

/-- C1: when a `following` run returns without error, the returned Result
Set equals the ordered concatenation of the items of all pages received
from the remote listing call, in fetch order — no duplication, no omission.
(This is proved with no assumption on throttling: it holds whether or not
retries occurred along the way, which subsumes the throttle-free case of
the claim.) -/
theorem following_result_is_page_concat
    (fetch : String → String → Nat → Nat → Except GoError GraphGetFollows_Output)
    (did : String) (fuel : Nat) (accs : List Account)
    (h : (following fetch did fuel).result = some (.ok accs)) :
    accs = (following fetch did fuel).pages.flatten := by
  have := followingLoop_ok_append fetch did fuel 1 "" [] accs (by simpa [following] using h)
  simpa [following] using this

/-- Witness for C1: a two-page run (pages `[d1]` then `[d2]`) returns
exactly their concatenation. -/
theorem following_result_is_page_concat_witness :
    [Account.mk "d1" "h1", Account.mk "d2" "h2"] =
      (following
        (fun _ cur _ _ =>
          if cur = "" then .ok ⟨[Account.mk "d1" "h1"], some "t1"⟩
          else .ok ⟨[Account.mk "d2" "h2"], none⟩)
        "me" 5).pages.flatten :=
  following_result_is_page_concat
    (fun _ cur _ _ =>
      if cur = "" then .ok ⟨[Account.mk "d1" "h1"], some "t1"⟩
      else .ok ⟨[Account.mk "d2" "h2"], none⟩)
    "me" 5 [Account.mk "d1" "h1", Account.mk "d2" "h2"] (by decide)


/-- Helper: a pagination run with positive fuel passes the starting cursor
to its first page fetch. -/
theorem followingLoop_cursors_head
    (fetch : String → String → Nat → Nat → Except GoError GraphGetFollows_Output)
    (did : String) (fuel pn : Nat) (cur : String) (acc : List Account) (hf : 0 < fuel) :
    (followingLoop fetch did fuel pn cur acc).cursors.head? = some cur := by
  obtain ⟨f, rfl⟩ : ∃ f, fuel = f + 1 := ⟨fuel - 1, by omega⟩
  cases hres : (retryWithBackoff (fun attempt => fetch did cur 100 attempt)
      ("GraphGetFollows page " ++ toString pn)).result with
  | error e => simp [followingLoop, hres]
  | ok fs =>
    cases hcur : fs.cursor with
    | none => simp [followingLoop, hres, hcur]
    | some c =>
      by_cases hc : c = "" <;> by_cases hnil : fs.follows = [] <;>
        simp [followingLoop, hres, hcur, hc, hnil]


/-- Helper: if a `following` run returns an error, the error is exactly
the one produced by the retry-wrapped fetch of the last visited cursor,
and that failing fetch contributed no page (one more cursor than pages). -/
theorem followingLoop_error_propagates
    (fetch : String → String → Nat → Nat → Except GoError GraphGetFollows_Output)
    (did : String) :
    ∀ fuel pn cur acc e,
      (followingLoop fetch did fuel pn cur acc).result = some (.error e) →
      ∃ cl, (followingLoop fetch did fuel pn cur acc).cursors.getLast? = some cl ∧
        (retryWithBackoff (fun attempt => fetch did cl 100 attempt)
          ("GraphGetFollows page " ++
            toString (pn + ((followingLoop fetch did fuel pn cur acc).cursors.length - 1)))).result
          = .error e ∧
        (followingLoop fetch did fuel pn cur acc).pages.length + 1 =
          (followingLoop fetch did fuel pn cur acc).cursors.length := by
  intro fuel
  induction fuel with
  | zero => intro pn cur acc e h; simp [followingLoop] at h
  | succ f ih =>
    intro pn cur acc e h
    cases hres : (retryWithBackoff (fun attempt => fetch did cur 100 attempt)
        ("GraphGetFollows page " ++ toString pn)).result with
    | error e0 =>
      simp [followingLoop, hres] at h ⊢
      subst h
      rfl
    | ok fs =>
      cases hcur : fs.cursor with
      | none => simp [followingLoop, hres, hcur] at h
      | some c =>
        by_cases hc : c = ""
        · simp [followingLoop, hres, hcur, hc] at h
        · by_cases hnil : fs.follows = []
          · simp [followingLoop, hres, hcur, hc, hnil] at h
          · obtain ⟨cl, h1, h2, h3⟩ := by
              refine ih (pn + 1) c (acc ++ fs.follows) e ?_
              simpa [followingLoop, hres, hcur, hc, hnil] using h
            refine ⟨cl, ?_, ?_, ?_⟩ <;>
              simp [followingLoop, hres, hcur, hc, hnil]
            · obtain ⟨x, xs, hcs⟩ : ∃ x xs,
                  (followingLoop fetch did f (pn + 1) c (acc ++ fs.follows)).cursors = x :: xs := by
                cases hc2 : (followingLoop fetch did f (pn + 1) c (acc ++ fs.follows)).cursors with
                | nil => rw [hc2] at h1; simp at h1
                | cons x xs => exact ⟨x, xs, rfl⟩
              rw [hcs]
              rw [hcs] at h1
              simpa [List.getLast?_cons_cons] using h1
            · have hpos : 0 < (followingLoop fetch did f (pn + 1) c (acc ++ fs.follows)).cursors.length := by
                cases hc2 : (followingLoop fetch did f (pn + 1) c (acc ++ fs.follows)).cursors with
                | nil => rw [hc2] at h1; simp at h1
                | cons x xs => simp [hc2]
              have harg : pn + (followingLoop fetch did f (pn + 1) c (acc ++ fs.follows)).cursors.length =
                  (pn + 1) + ((followingLoop fetch did f (pn + 1) c (acc ++ fs.follows)).cursors.length - 1) := by
                omega
              rw [harg]
              exact h2
            · omega


/-- C10: the attempt counter and backoff duration are re-initialised at
every invocation of `retryWithBackoff`, and the pagination loop wraps each
page fetch in its own invocation, so the `maxRetries` cap applies per page
fetch: a run whose two page fetches each suffer `maxRetries` rate-limit
failures before succeeding (10 failures in total, exceeding a hypothetical
whole-operation cap of 5) still succeeds, each fetch making
`maxRetries + 1` calls with a wait trace restarting at `initialBackoff`. -/
theorem following_retry_budget_is_per_page
    (fetch : String → String → Nat → Nat → Except GoError GraphGetFollows_Output)
    (did : String) (fuel : Nat) (out1 out2 : GraphGetFollows_Output) (t : String)
    (errf1 errf2 : Nat → String)
    (h1 : ∀ i, i < maxRetries → fetch did "" 100 i = .error (.xrpc 429 (errf1 i)))
    (h1s : fetch did "" 100 maxRetries = .ok out1)
    (hcur1 : out1.cursor = some t) (ht : t ≠ "") (hne : out1.follows ≠ [])
    (h2 : ∀ i, i < maxRetries → fetch did t 100 i = .error (.xrpc 429 (errf2 i)))
    (h2s : fetch did t 100 maxRetries = .ok out2)
    (hcur2 : out2.cursor = none) :
    following fetch did (fuel + 2) =
      ⟨some (.ok (out1.follows ++ out2.follows)), ["", t],
        [out1.follows, out2.follows], [maxRetries + 1, maxRetries + 1],
        [[2, 4, 8, 16, 32], [2, 4, 8, 16, 32]]⟩ := by
  have a0 := h1 0 (by norm_num [maxRetries])
  have a1 := h1 1 (by norm_num [maxRetries])
  have a2 := h1 2 (by norm_num [maxRetries])
  have a3 := h1 3 (by norm_num [maxRetries])
  have a4 := h1 4 (by norm_num [maxRetries])
  have b0 := h2 0 (by norm_num [maxRetries])
  have b1 := h2 1 (by norm_num [maxRetries])
  have b2 := h2 2 (by norm_num [maxRetries])
  have b3 := h2 3 (by norm_num [maxRetries])
  have b4 := h2 4 (by norm_num [maxRetries])
  have h1s5 : fetch did "" 100 5 = .ok out1 := by simpa [maxRetries] using h1s
  have h2s5 : fetch did t 100 5 = .ok out2 := by simpa [maxRetries] using h2s
  rw [following, show fuel + 2 = (fuel + 1) + 1 from rfl]
  simp [followingLoop, retryWithBackoff, retryAux, maxRetries, initialBackoff,
    GoError.is429, a0, a1, a2, a3, a4, h1s5, b0, b1, b2, b3, b4, h2s5, hcur1, ht,
    hne, hcur2]

/-- Witness for C10: both pages fail five times with 429 then succeed; the
run returns both pages and each fetch shows a fresh 6-call, 2-4-8-16-32
backoff history. -/
theorem following_retry_budget_is_per_page_witness :
    following
      (fun _ cur _ att =>
        if att < 5 then .error (.xrpc 429 "r")
        else if cur = "" then .ok ⟨[Account.mk "d1" "h1"], some "t1"⟩
        else .ok ⟨[Account.mk "d2" "h2"], none⟩) "me" (0 + 2) =
      ⟨some (.ok ((GraphGetFollows_Output.mk [Account.mk "d1" "h1"] (some "t1")).follows ++
          (GraphGetFollows_Output.mk [Account.mk "d2" "h2"] none).follows)),
        ["", "t1"],
        [(GraphGetFollows_Output.mk [Account.mk "d1" "h1"] (some "t1")).follows,
          (GraphGetFollows_Output.mk [Account.mk "d2" "h2"] none).follows],
        [maxRetries + 1, maxRetries + 1],
        [[2, 4, 8, 16, 32], [2, 4, 8, 16, 32]]⟩ :=
  following_retry_budget_is_per_page
    (fun _ cur _ att =>
      if att < 5 then .error (.xrpc 429 "r")
      else if cur = "" then .ok ⟨[Account.mk "d1" "h1"], some "t1"⟩
      else .ok ⟨[Account.mk "d2" "h2"], none⟩)
    "me" 0 ⟨[Account.mk "d1" "h1"], some "t1"⟩ ⟨[Account.mk "d2" "h2"], none⟩ "t1"
    (fun _ => "r") (fun _ => "r")
    (fun i hi => by
      have h5 : i < 5 := by simpa [maxRetries] using hi
      simp [h5])
    (by decide) rfl (by decide) (by decide)
    (fun i hi => by
      have h5 : i < 5 := by simpa [maxRetries] using hi
      simp [h5])
    (by decide) rfl

/-- C9: the output formatter emits exactly one line per account — the
emitted list has the same length as the Result Set, and the line at every
index is `did ++ "," ++ handle ++ "\n"` of the account at the same index
(hence Result Set order, no header row, no trailing summary); composed
over a listing result, errors emit nothing and a Result Set emits exactly
the concatenation of these lines.  All functions involved are pure. -/
theorem print_one_line_per_account (out : List Account) :
    (printEmits out).length = out.length ∧
    (∀ i : Nat, (printEmits out)[i]? =
      (out[i]?).map (fun acc => acc.did ++ "," ++ acc.handle ++ "\n")) ∧
    printRun (.ok out) = .ok (String.join (printEmits out)) ∧
    (∀ e : GoError, printRun (.error e) = .error e) := by
  refine ⟨by simp [printEmits], fun i => ?_, rfl, fun e => rfl⟩
  simp [printEmits]

/-- Helper: `following` is the common pagination pattern instantiated with
the `GraphGetFollows` step (which passes `did`) and the `Follows` field. -/
theorem followingLoop_eq_paginate
    (fetch : String → String → Nat → Nat → Except GoError GraphGetFollows_Output)
    (did : String) :
    ∀ fuel pn cur acc,
      followingLoop fetch did fuel pn cur acc =
        paginate (followingStep fetch did) fuel pn cur acc := by
  intro fuel
  induction fuel with
  | zero => intro pn cur acc; rfl
  | succ f ih =>
    intro pn cur acc
    cases hres : (retryWithBackoff (fun attempt => fetch did cur 100 attempt)
        ("GraphGetFollows page " ++ toString pn)).result with
    | error e =>
      simp [followingLoop, paginate, followingStep, RetryResult.mapT, Except.map, hres]
    | ok fs =>
      cases hcur : fs.cursor with
      | none =>
        simp [followingLoop, paginate, followingStep, RetryResult.mapT, Except.map, hres, hcur,
          GraphGetFollows_Output.toPage]
      | some c =>
        by_cases hc : c = "" <;> by_cases hnil : fs.follows = [] <;>
          simp [followingLoop, paginate, followingStep, RetryResult.mapT, Except.map, hres, hcur,
            GraphGetFollows_Output.toPage, hc, hnil, ih]

/-- Helper: `followers` is the common pagination pattern instantiated with
the `GraphGetFollowers` step (which passes `did`) and the `Followers`
field. -/
theorem followersLoop_eq_paginate
    (fetch : String → String → Nat → Nat → Except GoError GraphGetFollowers_Output)
    (did : String) :
    ∀ fuel pn cur acc,
      followersLoop fetch did fuel pn cur acc =
        paginate (followersStep fetch did) fuel pn cur acc := by
  intro fuel
  induction fuel with
  | zero => intro pn cur acc; rfl
  | succ f ih =>
    intro pn cur acc
    cases hres : (retryWithBackoff (fun attempt => fetch did cur 100 attempt)
        ("GraphGetFollowers page " ++ toString pn)).result with
    | error e =>
      simp [followersLoop, paginate, followersStep, RetryResult.mapT, Except.map, hres]
    | ok fs =>
      cases hcur : fs.cursor with
      | none =>
        simp [followersLoop, paginate, followersStep, RetryResult.mapT, Except.map, hres, hcur,
          GraphGetFollowers_Output.toPage]
      | some c =>
        by_cases hc : c = "" <;> by_cases hnil : fs.followers = [] <;>
          simp [followersLoop, paginate, followersStep, RetryResult.mapT, Except.map, hres, hcur,
            GraphGetFollowers_Output.toPage, hc, hnil, ih]

/-- Helper: `muted` is the common pagination pattern instantiated with the
`GraphGetMutes` step (cursor and limit only, no target account) and the
`Mutes` field. -/
theorem mutedLoop_eq_paginate
    (fetch : String → Nat → Nat → Except GoError GraphGetMutes_Output) :
    ∀ fuel pn cur acc,
      mutedLoop fetch fuel pn cur acc = paginate (mutedStep fetch) fuel pn cur acc := by
  intro fuel
  induction fuel with
  | zero => intro pn cur acc; rfl
  | succ f ih =>
    intro pn cur acc
    cases hres : (retryWithBackoff (fun attempt => fetch cur 100 attempt)
        ("GraphGetMutes page " ++ toString pn)).result with
    | error e =>
      simp [mutedLoop, paginate, mutedStep, RetryResult.mapT, Except.map, hres]
    | ok fs =>
      cases hcur : fs.cursor with
      | none =>
        simp [mutedLoop, paginate, mutedStep, RetryResult.mapT, Except.map, hres, hcur,
          GraphGetMutes_Output.toPage]
      | some c =>
        by_cases hc : c = "" <;> by_cases hnil : fs.mutes = [] <;>
          simp [mutedLoop, paginate, mutedStep, RetryResult.mapT, Except.map, hres, hcur,
            GraphGetMutes_Output.toPage, hc, hnil, ih]

/-- Helper: `blocked` is the common pagination pattern instantiated with
the `GraphGetBlocks` step (cursor and limit only, no target account) and
the `Blocks` field. -/
theorem blockedLoop_eq_paginate
    (fetch : String → Nat → Nat → Except GoError GraphGetBlocks_Output) :
    ∀ fuel pn cur acc,
      blockedLoop fetch fuel pn cur acc = paginate (blockedStep fetch) fuel pn cur acc := by
  intro fuel
  induction fuel with
  | zero => intro pn cur acc; rfl
  | succ f ih =>
    intro pn cur acc
    cases hres : (retryWithBackoff (fun attempt => fetch cur 100 attempt)
        ("GraphGetBlocks page " ++ toString pn)).result with
    | error e =>
      simp [blockedLoop, paginate, blockedStep, RetryResult.mapT, Except.map, hres]
    | ok fs =>
      cases hcur : fs.cursor with
      | none =>
        simp [blockedLoop, paginate, blockedStep, RetryResult.mapT, Except.map, hres, hcur,
          GraphGetBlocks_Output.toPage]
      | some c =>
        by_cases hc : c = "" <;> by_cases hnil : fs.blocks = [] <;>
          simp [blockedLoop, paginate, blockedStep, RetryResult.mapT, Except.map, hres, hcur,
            GraphGetBlocks_Output.toPage, hc, hnil, ih]

/-- C8 counterexample: the claim says that among the four listing
instantiations only `blocked` omits the target-account parameter from its
remote call, with every other instantiation (hence `muted`) passing the
target identifier.  In the code `muted` calls
`bsky.GraphGetMutes(ctx, c, currentCursor, 100)` — no target — so its run
is identical for two different targets, even against remote data for which
the genuinely target-passing `following` distinguishes the same two
targets. -/
theorem muted_ignores_target_counterexample :
    muted (fun _ _ _ => .ok ⟨[Account.mk "m" "hm"], none⟩) "did:alice" 1 =
      muted (fun _ _ _ => .ok ⟨[Account.mk "m" "hm"], none⟩) "did:bob" 1 ∧
    following
        (fun d _ _ _ =>
          .ok ⟨if d = "did:alice" then [Account.mk "a" "ha"] else [], none⟩)
        "did:alice" 1 ≠
      following
        (fun d _ _ _ =>
          .ok ⟨if d = "did:alice" then [Account.mk "a" "ha"] else [], none⟩)
        "did:bob" 1 :=
  ⟨rfl, by decide⟩

/-- C8 (amended): the four listing instantiations differ only in which
remote listing call is invoked and which field of the page structure holds
the items — each is the common pagination pattern `paginate` at its own
step — and, for blocks AND mutes, the listing call takes no target-account
parameter; only `following` and `followers` pass the target account
identifier to their remote calls (`muted` and `blocked` are invariant in
their target argument, while a remote behaviour exists that makes
`following`, respectively `followers`, distinguish two targets). -/
theorem listing_instantiations_common_pattern :
    (∀ (fetch : String → String → Nat → Nat → Except GoError GraphGetFollows_Output)
      (did : String) (fuel pn : Nat) (cur : String) (acc : List Account),
      followingLoop fetch did fuel pn cur acc =
        paginate (followingStep fetch did) fuel pn cur acc) ∧
    (∀ (fetch : String → String → Nat → Nat → Except GoError GraphGetFollowers_Output)
      (did : String) (fuel pn : Nat) (cur : String) (acc : List Account),
      followersLoop fetch did fuel pn cur acc =
        paginate (followersStep fetch did) fuel pn cur acc) ∧
    (∀ (fetch : String → Nat → Nat → Except GoError GraphGetMutes_Output)
      (fuel pn : Nat) (cur : String) (acc : List Account),
      mutedLoop fetch fuel pn cur acc = paginate (mutedStep fetch) fuel pn cur acc) ∧
    (∀ (fetch : String → Nat → Nat → Except GoError GraphGetBlocks_Output)
      (fuel pn : Nat) (cur : String) (acc : List Account),
      blockedLoop fetch fuel pn cur acc = paginate (blockedStep fetch) fuel pn cur acc) ∧
    (∀ (fetch : String → Nat → Nat → Except GoError GraphGetMutes_Output)
      (did₁ did₂ : String) (fuel : Nat),
      muted fetch did₁ fuel = muted fetch did₂ fuel) ∧
    (∀ (fetch : String → Nat → Nat → Except GoError GraphGetBlocks_Output)
      (id₁ id₂ : String) (fuel : Nat),
      blocked fetch id₁ fuel = blocked fetch id₂ fuel) ∧
    (∃ (fetch : String → String → Nat → Nat → Except GoError GraphGetFollows_Output)
      (did₁ did₂ : String) (fuel : Nat),
      following fetch did₁ fuel ≠ following fetch did₂ fuel) ∧
    (∃ (fetch : String → String → Nat → Nat → Except GoError GraphGetFollowers_Output)
      (did₁ did₂ : String) (fuel : Nat),
      followers fetch did₁ fuel ≠ followers fetch did₂ fuel) :=
  ⟨fun fetch did fuel pn cur acc => followingLoop_eq_paginate fetch did fuel pn cur acc,
    fun fetch did fuel pn cur acc => followersLoop_eq_paginate fetch did fuel pn cur acc,
    fun fetch fuel pn cur acc => mutedLoop_eq_paginate fetch fuel pn cur acc,
    fun fetch fuel pn cur acc => blockedLoop_eq_paginate fetch fuel pn cur acc,
    fun _ _ _ _ => rfl,
    fun _ _ _ _ => rfl,
    ⟨fun d _ _ _ => .ok ⟨if d = "did:alice" then [Account.mk "a" "ha"] else [], none⟩,
      "did:alice", "did:bob", 1, by decide⟩,
    ⟨fun d _ _ _ => .ok ⟨if d = "did:alice" then [Account.mk "a" "ha"] else [], none⟩,
      "did:alice", "did:bob", 1, by decide⟩⟩

/-- Helper: a `followers` run with positive fuel passes the starting
cursor to its first page fetch. -/
theorem followersLoop_cursors_head
    (fetch : String → String → Nat → Nat → Except GoError GraphGetFollowers_Output)
    (did : String) (fuel pn : Nat) (cur : String) (acc : List Account) (hf : 0 < fuel) :
    (followersLoop fetch did fuel pn cur acc).cursors.head? = some cur := by
  obtain ⟨f, rfl⟩ : ∃ f, fuel = f + 1 := ⟨fuel - 1, by omega⟩
  cases hres : (retryWithBackoff (fun attempt => fetch did cur 100 attempt)
      ("GraphGetFollowers page " ++ toString pn)).result with
  | error e => simp [followersLoop, hres]
  | ok fs =>
    cases hcur : fs.cursor with
    | none => simp [followersLoop, hres, hcur]
    | some c =>
      by_cases hc : c = "" <;> by_cases hnil : fs.followers = [] <;>
        simp [followersLoop, hres, hcur, hc, hnil]

/-- Helper: a `muted` run with positive fuel passes the starting cursor to
its first page fetch. -/
theorem mutedLoop_cursors_head
    (fetch : String → Nat → Nat → Except GoError GraphGetMutes_Output)
    (fuel pn : Nat) (cur : String) (acc : List Account) (hf : 0 < fuel) :
    (mutedLoop fetch fuel pn cur acc).cursors.head? = some cur := by
  obtain ⟨f, rfl⟩ : ∃ f, fuel = f + 1 := ⟨fuel - 1, by omega⟩
  cases hres : (retryWithBackoff (fun attempt => fetch cur 100 attempt)
      ("GraphGetMutes page " ++ toString pn)).result with
  | error e => simp [mutedLoop, hres]
  | ok fs =>
    cases hcur : fs.cursor with
    | none => simp [mutedLoop, hres, hcur]
    | some c =>
      by_cases hc : c = "" <;> by_cases hnil : fs.mutes = [] <;>
        simp [mutedLoop, hres, hcur, hc, hnil]

/-- Helper: a `blocked` run with positive fuel passes the starting cursor
to its first page fetch. -/
theorem blockedLoop_cursors_head
    (fetch : String → Nat → Nat → Except GoError GraphGetBlocks_Output)
    (fuel pn : Nat) (cur : String) (acc : List Account) (hf : 0 < fuel) :
    (blockedLoop fetch fuel pn cur acc).cursors.head? = some cur := by
  obtain ⟨f, rfl⟩ : ∃ f, fuel = f + 1 := ⟨fuel - 1, by omega⟩
  cases hres : (retryWithBackoff (fun attempt => fetch cur 100 attempt)
      ("GraphGetBlocks page " ++ toString pn)).result with
  | error e => simp [blockedLoop, hres]
  | ok fs =>
    cases hcur : fs.cursor with
    | none => simp [blockedLoop, hres, hcur]
    | some c =>
      by_cases hc : c = "" <;> by_cases hnil : fs.blocks = [] <;>
        simp [blockedLoop, hres, hcur, hc, hnil]

/-- C5: for every listing operation (following, followers, mutes, blocks),
a page with zero items terminates pagination immediately even when it
carries a non-empty continuation token; in particular when the very first
page is empty with a non-empty token, the Result Set is empty and exactly
one page fetch (one remote call) is made. -/
theorem listing_zero_item_page_terminates :
    (∀ (fetch : String → String → Nat → Nat → Except GoError GraphGetFollows_Output)
      (did : String) (fuel pn : Nat) (cur : String) (acc : List Account)
      (out : GraphGetFollows_Output) (c : String),
      fetch did cur 100 0 = .ok out → out.cursor = some c → c ≠ "" →
      out.follows = [] →
      followingLoop fetch did (fuel + 1) pn cur acc =
        ⟨some (.ok acc), [cur], [[]], [1], [[]]⟩ ∧
      (cur = "" → acc = [] → pn = 1 →
        following fetch did (fuel + 1) = ⟨some (.ok []), [""], [[]], [1], [[]]⟩)) ∧
    (∀ (fetch : String → String → Nat → Nat → Except GoError GraphGetFollowers_Output)
      (did : String) (fuel pn : Nat) (cur : String) (acc : List Account)
      (out : GraphGetFollowers_Output) (c : String),
      fetch did cur 100 0 = .ok out → out.cursor = some c → c ≠ "" →
      out.followers = [] →
      followersLoop fetch did (fuel + 1) pn cur acc =
        ⟨some (.ok acc), [cur], [[]], [1], [[]]⟩ ∧
      (cur = "" → acc = [] → pn = 1 →
        followers fetch did (fuel + 1) = ⟨some (.ok []), [""], [[]], [1], [[]]⟩)) ∧
    (∀ (fetch : String → Nat → Nat → Except GoError GraphGetMutes_Output)
      (did : String) (fuel pn : Nat) (cur : String) (acc : List Account)
      (out : GraphGetMutes_Output) (c : String),
      fetch cur 100 0 = .ok out → out.cursor = some c → c ≠ "" →
      out.mutes = [] →
      mutedLoop fetch (fuel + 1) pn cur acc =
        ⟨some (.ok acc), [cur], [[]], [1], [[]]⟩ ∧
      (cur = "" → acc = [] → pn = 1 →
        muted fetch did (fuel + 1) = ⟨some (.ok []), [""], [[]], [1], [[]]⟩)) ∧
    (∀ (fetch : String → Nat → Nat → Except GoError GraphGetBlocks_Output)
      (id : String) (fuel pn : Nat) (cur : String) (acc : List Account)
      (out : GraphGetBlocks_Output) (c : String),
      fetch cur 100 0 = .ok out → out.cursor = some c → c ≠ "" →
      out.blocks = [] →
      blockedLoop fetch (fuel + 1) pn cur acc =
        ⟨some (.ok acc), [cur], [[]], [1], [[]]⟩ ∧
      (cur = "" → acc = [] → pn = 1 →
        blocked fetch id (fuel + 1) = ⟨some (.ok []), [""], [[]], [1], [[]]⟩)) := by
  refine ⟨?_, ?_, ?_, ?_⟩
  · intro fetch did fuel pn cur acc out c hfetch hcur hc hnil
    constructor
    · simp [followingLoop, retryWithBackoff, retryAux, hfetch, hcur, hc, hnil]
    · intro h1 h2 h3
      subst h1; subst h2; subst h3
      simp [following, followingLoop, retryWithBackoff, retryAux, hfetch, hcur, hc, hnil]
  · intro fetch did fuel pn cur acc out c hfetch hcur hc hnil
    constructor
    · simp [followersLoop, retryWithBackoff, retryAux, hfetch, hcur, hc, hnil]
    · intro h1 h2 h3
      subst h1; subst h2; subst h3
      simp [followers, followersLoop, retryWithBackoff, retryAux, hfetch, hcur, hc, hnil]
  · intro fetch did fuel pn cur acc out c hfetch hcur hc hnil
    constructor
    · simp [mutedLoop, retryWithBackoff, retryAux, hfetch, hcur, hc, hnil]
    · intro h1 h2 h3
      subst h1; subst h2; subst h3
      simp [muted, mutedLoop, retryWithBackoff, retryAux, hfetch, hcur, hc, hnil]
  · intro fetch id fuel pn cur acc out c hfetch hcur hc hnil
    constructor
    · simp [blockedLoop, retryWithBackoff, retryAux, hfetch, hcur, hc, hnil]
    · intro h1 h2 h3
      subst h1; subst h2; subst h3
      simp [blocked, blockedLoop, retryWithBackoff, retryAux, hfetch, hcur, hc, hnil]

/-- Witness for C5, one concrete instance per listing operation: a first
page with zero items and continuation token `"t1"` produces an empty
Result Set from a single call in all four instantiations. -/
theorem listing_zero_item_page_terminates_witness :
    (followingLoop (fun _ _ _ _ => .ok ⟨[], some "t1"⟩) "me" (4 + 1) 1 "" [] =
        ⟨some (.ok []), [""], [[]], [1], [[]]⟩ ∧
      ("" = "" → ([] : List Account) = [] → 1 = 1 →
        following (fun _ _ _ _ => .ok ⟨[], some "t1"⟩) "me" (4 + 1) =
          ⟨some (.ok []), [""], [[]], [1], [[]]⟩)) ∧
    (followersLoop (fun _ _ _ _ => .ok ⟨[], some "t1"⟩) "me" (4 + 1) 1 "" [] =
        ⟨some (.ok []), [""], [[]], [1], [[]]⟩ ∧
      ("" = "" → ([] : List Account) = [] → 1 = 1 →
        followers (fun _ _ _ _ => .ok ⟨[], some "t1"⟩) "me" (4 + 1) =
          ⟨some (.ok []), [""], [[]], [1], [[]]⟩)) ∧
    (mutedLoop (fun _ _ _ => .ok ⟨[], some "t1"⟩) (4 + 1) 1 "" [] =
        ⟨some (.ok []), [""], [[]], [1], [[]]⟩ ∧
      ("" = "" → ([] : List Account) = [] → 1 = 1 →
        muted (fun _ _ _ => .ok ⟨[], some "t1"⟩) "me" (4 + 1) =
          ⟨some (.ok []), [""], [[]], [1], [[]]⟩)) ∧
    (blockedLoop (fun _ _ _ => .ok ⟨[], some "t1"⟩) (4 + 1) 1 "" [] =
        ⟨some (.ok []), [""], [[]], [1], [[]]⟩ ∧
      ("" = "" → ([] : List Account) = [] → 1 = 1 →
        blocked (fun _ _ _ => .ok ⟨[], some "t1"⟩) "me" (4 + 1) =
          ⟨some (.ok []), [""], [[]], [1], [[]]⟩)) :=
  ⟨listing_zero_item_page_terminates.1 (fun _ _ _ _ => .ok ⟨[], some "t1"⟩)
      "me" 4 1 "" [] ⟨[], some "t1"⟩ "t1" rfl rfl (by decide) rfl,
    listing_zero_item_page_terminates.2.1 (fun _ _ _ _ => .ok ⟨[], some "t1"⟩)
      "me" 4 1 "" [] ⟨[], some "t1"⟩ "t1" rfl rfl (by decide) rfl,
    listing_zero_item_page_terminates.2.2.1 (fun _ _ _ => .ok ⟨[], some "t1"⟩)
      "me" 4 1 "" [] ⟨[], some "t1"⟩ "t1" rfl rfl (by decide) rfl,
    listing_zero_item_page_terminates.2.2.2 (fun _ _ _ => .ok ⟨[], some "t1"⟩)
      "me" 4 1 "" [] ⟨[], some "t1"⟩ "t1" rfl rfl (by decide) rfl⟩

/-- C6: for every listing operation (following, followers, mutes, blocks),
a page carrying a non-empty continuation token and a non-zero number of
items makes pagination continue, passing exactly that token as the cursor
of the next page fetch (first conjunct of each block, including
`cursors.take 2 = [cur, c]`); a page whose token is absent or empty, even
following a non-empty page, terminates pagination with the accumulated
result (second conjunct of each block). -/
theorem listing_cursor_token_policy :
    (∀ (fetch : String → String → Nat → Nat → Except GoError GraphGetFollows_Output) (did : String)
      (fuel pn : Nat) (cur : String) (acc : List Account)
      (out : GraphGetFollows_Output) (c : String),
      fetch did cur 100 0 = .ok out →
      ((out.cursor = some c → c ≠ "" → out.follows ≠ [] →
        followingLoop fetch did (fuel + 2) pn cur acc =
          ⟨(followingLoop fetch did (fuel + 1) (pn + 1) c (acc ++ out.follows)).result,
            cur :: (followingLoop fetch did (fuel + 1) (pn + 1) c (acc ++ out.follows)).cursors,
            out.follows :: (followingLoop fetch did (fuel + 1) (pn + 1) c (acc ++ out.follows)).pages,
            1 :: (followingLoop fetch did (fuel + 1) (pn + 1) c (acc ++ out.follows)).retryCalls,
            [] :: (followingLoop fetch did (fuel + 1) (pn + 1) c (acc ++ out.follows)).waits⟩ ∧
        (followingLoop fetch did (fuel + 2) pn cur acc).cursors.take 2 = [cur, c]) ∧
      ((out.cursor = none ∨ out.cursor = some "") → out.follows ≠ [] →
        followingLoop fetch did (fuel + 1) pn cur acc =
          ⟨some (.ok (acc ++ out.follows)), [cur], [out.follows], [1], [[]]⟩))) ∧
    (∀ (fetch : String → String → Nat → Nat → Except GoError GraphGetFollowers_Output) (did : String)
      (fuel pn : Nat) (cur : String) (acc : List Account)
      (out : GraphGetFollowers_Output) (c : String),
      fetch did cur 100 0 = .ok out →
      ((out.cursor = some c → c ≠ "" → out.followers ≠ [] →
        followersLoop fetch did (fuel + 2) pn cur acc =
          ⟨(followersLoop fetch did (fuel + 1) (pn + 1) c (acc ++ out.followers)).result,
            cur :: (followersLoop fetch did (fuel + 1) (pn + 1) c (acc ++ out.followers)).cursors,
            out.followers :: (followersLoop fetch did (fuel + 1) (pn + 1) c (acc ++ out.followers)).pages,
            1 :: (followersLoop fetch did (fuel + 1) (pn + 1) c (acc ++ out.followers)).retryCalls,
            [] :: (followersLoop fetch did (fuel + 1) (pn + 1) c (acc ++ out.followers)).waits⟩ ∧
        (followersLoop fetch did (fuel + 2) pn cur acc).cursors.take 2 = [cur, c]) ∧
      ((out.cursor = none ∨ out.cursor = some "") → out.followers ≠ [] →
        followersLoop fetch did (fuel + 1) pn cur acc =
          ⟨some (.ok (acc ++ out.followers)), [cur], [out.followers], [1], [[]]⟩))) ∧
    (∀ (fetch : String → Nat → Nat → Except GoError GraphGetMutes_Output)
      (fuel pn : Nat) (cur : String) (acc : List Account)
      (out : GraphGetMutes_Output) (c : String),
      fetch cur 100 0 = .ok out →
      ((out.cursor = some c → c ≠ "" → out.mutes ≠ [] →
        mutedLoop fetch (fuel + 2) pn cur acc =
          ⟨(mutedLoop fetch (fuel + 1) (pn + 1) c (acc ++ out.mutes)).result,
            cur :: (mutedLoop fetch (fuel + 1) (pn + 1) c (acc ++ out.mutes)).cursors,
            out.mutes :: (mutedLoop fetch (fuel + 1) (pn + 1) c (acc ++ out.mutes)).pages,
            1 :: (mutedLoop fetch (fuel + 1) (pn + 1) c (acc ++ out.mutes)).retryCalls,
            [] :: (mutedLoop fetch (fuel + 1) (pn + 1) c (acc ++ out.mutes)).waits⟩ ∧
        (mutedLoop fetch (fuel + 2) pn cur acc).cursors.take 2 = [cur, c]) ∧
      ((out.cursor = none ∨ out.cursor = some "") → out.mutes ≠ [] →
        mutedLoop fetch (fuel + 1) pn cur acc =
          ⟨some (.ok (acc ++ out.mutes)), [cur], [out.mutes], [1], [[]]⟩))) ∧
    (∀ (fetch : String → Nat → Nat → Except GoError GraphGetBlocks_Output)
      (fuel pn : Nat) (cur : String) (acc : List Account)
      (out : GraphGetBlocks_Output) (c : String),
      fetch cur 100 0 = .ok out →
      ((out.cursor = some c → c ≠ "" → out.blocks ≠ [] →
        blockedLoop fetch (fuel + 2) pn cur acc =
          ⟨(blockedLoop fetch (fuel + 1) (pn + 1) c (acc ++ out.blocks)).result,
            cur :: (blockedLoop fetch (fuel + 1) (pn + 1) c (acc ++ out.blocks)).cursors,
            out.blocks :: (blockedLoop fetch (fuel + 1) (pn + 1) c (acc ++ out.blocks)).pages,
            1 :: (blockedLoop fetch (fuel + 1) (pn + 1) c (acc ++ out.blocks)).retryCalls,
            [] :: (blockedLoop fetch (fuel + 1) (pn + 1) c (acc ++ out.blocks)).waits⟩ ∧
        (blockedLoop fetch (fuel + 2) pn cur acc).cursors.take 2 = [cur, c]) ∧
      ((out.cursor = none ∨ out.cursor = some "") → out.blocks ≠ [] →
        blockedLoop fetch (fuel + 1) pn cur acc =
          ⟨some (.ok (acc ++ out.blocks)), [cur], [out.blocks], [1], [[]]⟩))) := by
  refine ⟨?_, ?_, ?_, ?_⟩
  · intro fetch did fuel pn cur acc out c hfetch
    constructor
    · intro hcur hc hne
      have hstep : followingLoop fetch did (fuel + 2) pn cur acc =
          ⟨(followingLoop fetch did (fuel + 1) (pn + 1) c (acc ++ out.follows)).result,
            cur :: (followingLoop fetch did (fuel + 1) (pn + 1) c (acc ++ out.follows)).cursors,
            out.follows :: (followingLoop fetch did (fuel + 1) (pn + 1) c (acc ++ out.follows)).pages,
            1 :: (followingLoop fetch did (fuel + 1) (pn + 1) c (acc ++ out.follows)).retryCalls,
            [] :: (followingLoop fetch did (fuel + 1) (pn + 1) c (acc ++ out.follows)).waits⟩ := by
        conv_lhs => rw [show fuel + 2 = (fuel + 1) + 1 from rfl, followingLoop]
        simp [retryWithBackoff, retryAux, hfetch, hcur, hc, hne]
      refine ⟨hstep, ?_⟩
      rw [hstep]
      have hhead := followingLoop_cursors_head fetch did (fuel + 1) (pn + 1) c
        (acc ++ out.follows) (by omega)
      cases hcs : (followingLoop fetch did (fuel + 1) (pn + 1) c (acc ++ out.follows)).cursors with
      | nil => rw [hcs] at hhead; simp at hhead
      | cons x xs =>
        rw [hcs] at hhead
        simp at hhead
        simp [hhead]
    · intro hcur hne
      rcases hcur with hcur | hcur <;>
        simp [followingLoop, retryWithBackoff, retryAux, hfetch, hcur]
  · intro fetch did fuel pn cur acc out c hfetch
    constructor
    · intro hcur hc hne
      have hstep : followersLoop fetch did (fuel + 2) pn cur acc =
          ⟨(followersLoop fetch did (fuel + 1) (pn + 1) c (acc ++ out.followers)).result,
            cur :: (followersLoop fetch did (fuel + 1) (pn + 1) c (acc ++ out.followers)).cursors,
            out.followers :: (followersLoop fetch did (fuel + 1) (pn + 1) c (acc ++ out.followers)).pages,
            1 :: (followersLoop fetch did (fuel + 1) (pn + 1) c (acc ++ out.followers)).retryCalls,
            [] :: (followersLoop fetch did (fuel + 1) (pn + 1) c (acc ++ out.followers)).waits⟩ := by
        conv_lhs => rw [show fuel + 2 = (fuel + 1) + 1 from rfl, followersLoop]
        simp [retryWithBackoff, retryAux, hfetch, hcur, hc, hne]
      refine ⟨hstep, ?_⟩
      rw [hstep]
      have hhead := followersLoop_cursors_head fetch did (fuel + 1) (pn + 1) c
        (acc ++ out.followers) (by omega)
      cases hcs : (followersLoop fetch did (fuel + 1) (pn + 1) c (acc ++ out.followers)).cursors with
      | nil => rw [hcs] at hhead; simp at hhead
      | cons x xs =>
        rw [hcs] at hhead
        simp at hhead
        simp [hhead]
    · intro hcur hne
      rcases hcur with hcur | hcur <;>
        simp [followersLoop, retryWithBackoff, retryAux, hfetch, hcur]
  · intro fetch fuel pn cur acc out c hfetch
    constructor
    · intro hcur hc hne
      have hstep : mutedLoop fetch (fuel + 2) pn cur acc =
          ⟨(mutedLoop fetch (fuel + 1) (pn + 1) c (acc ++ out.mutes)).result,
            cur :: (mutedLoop fetch (fuel + 1) (pn + 1) c (acc ++ out.mutes)).cursors,
            out.mutes :: (mutedLoop fetch (fuel + 1) (pn + 1) c (acc ++ out.mutes)).pages,
            1 :: (mutedLoop fetch (fuel + 1) (pn + 1) c (acc ++ out.mutes)).retryCalls,
            [] :: (mutedLoop fetch (fuel + 1) (pn + 1) c (acc ++ out.mutes)).waits⟩ := by
        conv_lhs => rw [show fuel + 2 = (fuel + 1) + 1 from rfl, mutedLoop]
        simp [retryWithBackoff, retryAux, hfetch, hcur, hc, hne]
      refine ⟨hstep, ?_⟩
      rw [hstep]
      have hhead := mutedLoop_cursors_head fetch (fuel + 1) (pn + 1) c
        (acc ++ out.mutes) (by omega)
      cases hcs : (mutedLoop fetch (fuel + 1) (pn + 1) c (acc ++ out.mutes)).cursors with
      | nil => rw [hcs] at hhead; simp at hhead
      | cons x xs =>
        rw [hcs] at hhead
        simp at hhead
        simp [hhead]
    · intro hcur hne
      rcases hcur with hcur | hcur <;>
        simp [mutedLoop, retryWithBackoff, retryAux, hfetch, hcur]
  · intro fetch fuel pn cur acc out c hfetch
    constructor
    · intro hcur hc hne
      have hstep : blockedLoop fetch (fuel + 2) pn cur acc =
          ⟨(blockedLoop fetch (fuel + 1) (pn + 1) c (acc ++ out.blocks)).result,
            cur :: (blockedLoop fetch (fuel + 1) (pn + 1) c (acc ++ out.blocks)).cursors,
            out.blocks :: (blockedLoop fetch (fuel + 1) (pn + 1) c (acc ++ out.blocks)).pages,
            1 :: (blockedLoop fetch (fuel + 1) (pn + 1) c (acc ++ out.blocks)).retryCalls,
            [] :: (blockedLoop fetch (fuel + 1) (pn + 1) c (acc ++ out.blocks)).waits⟩ := by
        conv_lhs => rw [show fuel + 2 = (fuel + 1) + 1 from rfl, blockedLoop]
        simp [retryWithBackoff, retryAux, hfetch, hcur, hc, hne]
      refine ⟨hstep, ?_⟩
      rw [hstep]
      have hhead := blockedLoop_cursors_head fetch (fuel + 1) (pn + 1) c
        (acc ++ out.blocks) (by omega)
      cases hcs : (blockedLoop fetch (fuel + 1) (pn + 1) c (acc ++ out.blocks)).cursors with
      | nil => rw [hcs] at hhead; simp at hhead
      | cons x xs =>
        rw [hcs] at hhead
        simp at hhead
        simp [hhead]
    · intro hcur hne
      rcases hcur with hcur | hcur <;>
        simp [blockedLoop, retryWithBackoff, retryAux, hfetch, hcur]

/-- Witness for C6, one concrete instance per listing operation: page
`[d1]` with token `"t1"` at the empty cursor continues with cursor `"t1"`
and a tokenless page terminates, in all four instantiations. -/
theorem listing_cursor_token_policy_witness :
    ((some "t1" = some "t1" → "t1" ≠ "" →
        ([Account.mk "d1" "h1"] : List Account) ≠ [] →
      followingLoop (fun _ cur _ _ =>
          if cur = "" then .ok ⟨[Account.mk "d1" "h1"], some "t1"⟩
          else .ok ⟨[Account.mk "d2" "h2"], none⟩) "me" (3 + 2) 1 "" [] =
        ⟨some (.ok [Account.mk "d1" "h1", Account.mk "d2" "h2"]), ["", "t1"],
          [[Account.mk "d1" "h1"], [Account.mk "d2" "h2"]], [1, 1], [[], []]⟩ ∧
      (followingLoop (fun _ cur _ _ =>
          if cur = "" then .ok ⟨[Account.mk "d1" "h1"], some "t1"⟩
          else .ok ⟨[Account.mk "d2" "h2"], none⟩) "me" (3 + 2) 1 "" []).cursors.take 2 = ["", "t1"]) ∧
    ((some "t1" = none ∨ some "t1" = some "") →
        ([Account.mk "d1" "h1"] : List Account) ≠ [] →
      followingLoop (fun _ cur _ _ =>
          if cur = "" then .ok ⟨[Account.mk "d1" "h1"], some "t1"⟩
          else .ok ⟨[Account.mk "d2" "h2"], none⟩) "me" (3 + 1) 1 "" [] =
        ⟨some (.ok [Account.mk "d1" "h1"]), [""], [[Account.mk "d1" "h1"]], [1], [[]]⟩)) ∧
    ((some "t1" = some "t1" → "t1" ≠ "" →
        ([Account.mk "d1" "h1"] : List Account) ≠ [] →
      followersLoop (fun _ cur _ _ =>
          if cur = "" then .ok ⟨[Account.mk "d1" "h1"], some "t1"⟩
          else .ok ⟨[Account.mk "d2" "h2"], none⟩) "me" (3 + 2) 1 "" [] =
        ⟨some (.ok [Account.mk "d1" "h1", Account.mk "d2" "h2"]), ["", "t1"],
          [[Account.mk "d1" "h1"], [Account.mk "d2" "h2"]], [1, 1], [[], []]⟩ ∧
      (followersLoop (fun _ cur _ _ =>
          if cur = "" then .ok ⟨[Account.mk "d1" "h1"], some "t1"⟩
          else .ok ⟨[Account.mk "d2" "h2"], none⟩) "me" (3 + 2) 1 "" []).cursors.take 2 = ["", "t1"]) ∧
    ((some "t1" = none ∨ some "t1" = some "") →
        ([Account.mk "d1" "h1"] : List Account) ≠ [] →
      followersLoop (fun _ cur _ _ =>
          if cur = "" then .ok ⟨[Account.mk "d1" "h1"], some "t1"⟩
          else .ok ⟨[Account.mk "d2" "h2"], none⟩) "me" (3 + 1) 1 "" [] =
        ⟨some (.ok [Account.mk "d1" "h1"]), [""], [[Account.mk "d1" "h1"]], [1], [[]]⟩)) ∧
    ((some "t1" = some "t1" → "t1" ≠ "" →
        ([Account.mk "d1" "h1"] : List Account) ≠ [] →
      mutedLoop (fun cur _ _ =>
          if cur = "" then .ok ⟨[Account.mk "d1" "h1"], some "t1"⟩
          else .ok ⟨[Account.mk "d2" "h2"], none⟩) (3 + 2) 1 "" [] =
        ⟨some (.ok [Account.mk "d1" "h1", Account.mk "d2" "h2"]), ["", "t1"],
          [[Account.mk "d1" "h1"], [Account.mk "d2" "h2"]], [1, 1], [[], []]⟩ ∧
      (mutedLoop (fun cur _ _ =>
          if cur = "" then .ok ⟨[Account.mk "d1" "h1"], some "t1"⟩
          else .ok ⟨[Account.mk "d2" "h2"], none⟩) (3 + 2) 1 "" []).cursors.take 2 = ["", "t1"]) ∧
    ((some "t1" = none ∨ some "t1" = some "") →
        ([Account.mk "d1" "h1"] : List Account) ≠ [] →
      mutedLoop (fun cur _ _ =>
          if cur = "" then .ok ⟨[Account.mk "d1" "h1"], some "t1"⟩
          else .ok ⟨[Account.mk "d2" "h2"], none⟩) (3 + 1) 1 "" [] =
        ⟨some (.ok [Account.mk "d1" "h1"]), [""], [[Account.mk "d1" "h1"]], [1], [[]]⟩)) ∧
    ((some "t1" = some "t1" → "t1" ≠ "" →
        ([Account.mk "d1" "h1"] : List Account) ≠ [] →
      blockedLoop (fun cur _ _ =>
          if cur = "" then .ok ⟨[Account.mk "d1" "h1"], some "t1"⟩
          else .ok ⟨[Account.mk "d2" "h2"], none⟩) (3 + 2) 1 "" [] =
        ⟨some (.ok [Account.mk "d1" "h1", Account.mk "d2" "h2"]), ["", "t1"],
          [[Account.mk "d1" "h1"], [Account.mk "d2" "h2"]], [1, 1], [[], []]⟩ ∧
      (blockedLoop (fun cur _ _ =>
          if cur = "" then .ok ⟨[Account.mk "d1" "h1"], some "t1"⟩
          else .ok ⟨[Account.mk "d2" "h2"], none⟩) (3 + 2) 1 "" []).cursors.take 2 = ["", "t1"]) ∧
    ((some "t1" = none ∨ some "t1" = some "") →
        ([Account.mk "d1" "h1"] : List Account) ≠ [] →
      blockedLoop (fun cur _ _ =>
          if cur = "" then .ok ⟨[Account.mk "d1" "h1"], some "t1"⟩
          else .ok ⟨[Account.mk "d2" "h2"], none⟩) (3 + 1) 1 "" [] =
        ⟨some (.ok [Account.mk "d1" "h1"]), [""], [[Account.mk "d1" "h1"]], [1], [[]]⟩)) :=
  ⟨listing_cursor_token_policy.1
      (fun _ cur _ _ =>
        if cur = "" then .ok ⟨[Account.mk "d1" "h1"], some "t1"⟩
        else .ok ⟨[Account.mk "d2" "h2"], none⟩) "me"
      3 1 "" [] ⟨[Account.mk "d1" "h1"], some "t1"⟩ "t1" (by decide),
    listing_cursor_token_policy.2.1
      (fun _ cur _ _ =>
        if cur = "" then .ok ⟨[Account.mk "d1" "h1"], some "t1"⟩
        else .ok ⟨[Account.mk "d2" "h2"], none⟩) "me"
      3 1 "" [] ⟨[Account.mk "d1" "h1"], some "t1"⟩ "t1" (by decide),
    listing_cursor_token_policy.2.2.1
      (fun cur _ _ =>
        if cur = "" then .ok ⟨[Account.mk "d1" "h1"], some "t1"⟩
        else .ok ⟨[Account.mk "d2" "h2"], none⟩)
      3 1 "" [] ⟨[Account.mk "d1" "h1"], some "t1"⟩ "t1" (by decide),
    listing_cursor_token_policy.2.2.2
      (fun cur _ _ =>
        if cur = "" then .ok ⟨[Account.mk "d1" "h1"], some "t1"⟩
        else .ok ⟨[Account.mk "d2" "h2"], none⟩)
      3 1 "" [] ⟨[Account.mk "d1" "h1"], some "t1"⟩ "t1" (by decide)⟩

/-- Helper: if a `followers` run returns an error, the error is exactly the
one produced by the retry-wrapped fetch of the last visited cursor, and
that failing fetch contributed no page (one more cursor than pages). -/
theorem followersLoop_error_propagates
    (fetch : String → String → Nat → Nat → Except GoError GraphGetFollowers_Output)
    (did : String) :
    ∀ fuel pn cur acc e,
      (followersLoop fetch did fuel pn cur acc).result = some (.error e) →
      ∃ cl, (followersLoop fetch did fuel pn cur acc).cursors.getLast? = some cl ∧
        (retryWithBackoff (fun attempt => fetch did cl 100 attempt)
          ("GraphGetFollowers page " ++
            toString (pn + ((followersLoop fetch did fuel pn cur acc).cursors.length - 1)))).result
          = .error e ∧
        (followersLoop fetch did fuel pn cur acc).pages.length + 1 =
          (followersLoop fetch did fuel pn cur acc).cursors.length := by
  intro fuel
  induction fuel with
  | zero => intro pn cur acc e h; simp [followersLoop] at h
  | succ f ih =>
    intro pn cur acc e h
    cases hres : (retryWithBackoff (fun attempt => fetch did cur 100 attempt)
        ("GraphGetFollowers page " ++ toString pn)).result with
    | error e0 =>
      simp [followersLoop, hres] at h ⊢
      subst h
      rfl
    | ok fs =>
      cases hcur : fs.cursor with
      | none => simp [followersLoop, hres, hcur] at h
      | some c =>
        by_cases hc : c = ""
        · simp [followersLoop, hres, hcur, hc] at h
        · by_cases hnil : fs.followers = []
          · simp [followersLoop, hres, hcur, hc, hnil] at h
          · obtain ⟨cl, h1, h2, h3⟩ := by
              refine ih (pn + 1) c (acc ++ fs.followers) e ?_
              simpa [followersLoop, hres, hcur, hc, hnil] using h
            refine ⟨cl, ?_, ?_, ?_⟩ <;>
              simp [followersLoop, hres, hcur, hc, hnil]
            · obtain ⟨x, xs, hcs⟩ : ∃ x xs,
                  (followersLoop fetch did f (pn + 1) c (acc ++ fs.followers)).cursors = x :: xs := by
                cases hc2 : (followersLoop fetch did f (pn + 1) c (acc ++ fs.followers)).cursors with
                | nil => rw [hc2] at h1; simp at h1
                | cons x xs => exact ⟨x, xs, rfl⟩
              rw [hcs]
              rw [hcs] at h1
              simpa [List.getLast?_cons_cons] using h1
            · have hpos : 0 < (followersLoop fetch did f (pn + 1) c (acc ++ fs.followers)).cursors.length := by
                cases hc2 : (followersLoop fetch did f (pn + 1) c (acc ++ fs.followers)).cursors with
                | nil => rw [hc2] at h1; simp at h1
                | cons x xs => simp [hc2]
              have harg : pn + (followersLoop fetch did f (pn + 1) c (acc ++ fs.followers)).cursors.length =
                  (pn + 1) + ((followersLoop fetch did f (pn + 1) c (acc ++ fs.followers)).cursors.length - 1) := by
                omega
              rw [harg]
              exact h2
            · omega

/-- Helper: if a `muted` run returns an error, the error is exactly the
one produced by the retry-wrapped fetch of the last visited cursor, and
that failing fetch contributed no page (one more cursor than pages). -/
theorem mutedLoop_error_propagates
    (fetch : String → Nat → Nat → Except GoError GraphGetMutes_Output) :
    ∀ fuel pn cur acc e,
      (mutedLoop fetch fuel pn cur acc).result = some (.error e) →
      ∃ cl, (mutedLoop fetch fuel pn cur acc).cursors.getLast? = some cl ∧
        (retryWithBackoff (fun attempt => fetch cl 100 attempt)
          ("GraphGetMutes page " ++
            toString (pn + ((mutedLoop fetch fuel pn cur acc).cursors.length - 1)))).result
          = .error e ∧
        (mutedLoop fetch fuel pn cur acc).pages.length + 1 =
          (mutedLoop fetch fuel pn cur acc).cursors.length := by
  intro fuel
  induction fuel with
  | zero => intro pn cur acc e h; simp [mutedLoop] at h
  | succ f ih =>
    intro pn cur acc e h
    cases hres : (retryWithBackoff (fun attempt => fetch cur 100 attempt)
        ("GraphGetMutes page " ++ toString pn)).result with
    | error e0 =>
      simp [mutedLoop, hres] at h ⊢
      subst h
      rfl
    | ok fs =>
      cases hcur : fs.cursor with
      | none => simp [mutedLoop, hres, hcur] at h
      | some c =>
        by_cases hc : c = ""
        · simp [mutedLoop, hres, hcur, hc] at h
        · by_cases hnil : fs.mutes = []
          · simp [mutedLoop, hres, hcur, hc, hnil] at h
          · obtain ⟨cl, h1, h2, h3⟩ := by
              refine ih (pn + 1) c (acc ++ fs.mutes) e ?_
              simpa [mutedLoop, hres, hcur, hc, hnil] using h
            refine ⟨cl, ?_, ?_, ?_⟩ <;>
              simp [mutedLoop, hres, hcur, hc, hnil]
            · obtain ⟨x, xs, hcs⟩ : ∃ x xs,
                  (mutedLoop fetch f (pn + 1) c (acc ++ fs.mutes)).cursors = x :: xs := by
                cases hc2 : (mutedLoop fetch f (pn + 1) c (acc ++ fs.mutes)).cursors with
                | nil => rw [hc2] at h1; simp at h1
                | cons x xs => exact ⟨x, xs, rfl⟩
              rw [hcs]
              rw [hcs] at h1
              simpa [List.getLast?_cons_cons] using h1
            · have hpos : 0 < (mutedLoop fetch f (pn + 1) c (acc ++ fs.mutes)).cursors.length := by
                cases hc2 : (mutedLoop fetch f (pn + 1) c (acc ++ fs.mutes)).cursors with
                | nil => rw [hc2] at h1; simp at h1
                | cons x xs => simp [hc2]
              have harg : pn + (mutedLoop fetch f (pn + 1) c (acc ++ fs.mutes)).cursors.length =
                  (pn + 1) + ((mutedLoop fetch f (pn + 1) c (acc ++ fs.mutes)).cursors.length - 1) := by
                omega
              rw [harg]
              exact h2
            · omega

/-- Helper: if a `blocked` run returns an error, the error is exactly the
one produced by the retry-wrapped fetch of the last visited cursor, and
that failing fetch contributed no page (one more cursor than pages). -/
theorem blockedLoop_error_propagates
    (fetch : String → Nat → Nat → Except GoError GraphGetBlocks_Output) :
    ∀ fuel pn cur acc e,
      (blockedLoop fetch fuel pn cur acc).result = some (.error e) →
      ∃ cl, (blockedLoop fetch fuel pn cur acc).cursors.getLast? = some cl ∧
        (retryWithBackoff (fun attempt => fetch cl 100 attempt)
          ("GraphGetBlocks page " ++
            toString (pn + ((blockedLoop fetch fuel pn cur acc).cursors.length - 1)))).result
          = .error e ∧
        (blockedLoop fetch fuel pn cur acc).pages.length + 1 =
          (blockedLoop fetch fuel pn cur acc).cursors.length := by
  intro fuel
  induction fuel with
  | zero => intro pn cur acc e h; simp [blockedLoop] at h
  | succ f ih =>
    intro pn cur acc e h
    cases hres : (retryWithBackoff (fun attempt => fetch cur 100 attempt)
        ("GraphGetBlocks page " ++ toString pn)).result with
    | error e0 =>
      simp [blockedLoop, hres] at h ⊢
      subst h
      rfl
    | ok fs =>
      cases hcur : fs.cursor with
      | none => simp [blockedLoop, hres, hcur] at h
      | some c =>
        by_cases hc : c = ""
        · simp [blockedLoop, hres, hcur, hc] at h
        · by_cases hnil : fs.blocks = []
          · simp [blockedLoop, hres, hcur, hc, hnil] at h
          · obtain ⟨cl, h1, h2, h3⟩ := by
              refine ih (pn + 1) c (acc ++ fs.blocks) e ?_
              simpa [blockedLoop, hres, hcur, hc, hnil] using h
            refine ⟨cl, ?_, ?_, ?_⟩ <;>
              simp [blockedLoop, hres, hcur, hc, hnil]
            · obtain ⟨x, xs, hcs⟩ : ∃ x xs,
                  (blockedLoop fetch f (pn + 1) c (acc ++ fs.blocks)).cursors = x :: xs := by
                cases hc2 : (blockedLoop fetch f (pn + 1) c (acc ++ fs.blocks)).cursors with
                | nil => rw [hc2] at h1; simp at h1
                | cons x xs => exact ⟨x, xs, rfl⟩
              rw [hcs]
              rw [hcs] at h1
              simpa [List.getLast?_cons_cons] using h1
            · have hpos : 0 < (blockedLoop fetch f (pn + 1) c (acc ++ fs.blocks)).cursors.length := by
                cases hc2 : (blockedLoop fetch f (pn + 1) c (acc ++ fs.blocks)).cursors with
                | nil => rw [hc2] at h1; simp at h1
                | cons x xs => simp [hc2]
              have harg : pn + (blockedLoop fetch f (pn + 1) c (acc ++ fs.blocks)).cursors.length =
                  (pn + 1) + ((blockedLoop fetch f (pn + 1) c (acc ++ fs.blocks)).cursors.length - 1) := by
                omega
              rw [harg]
              exact h2
            · omega

/-- C7: for every listing operation (following, followers, mutes, blocks),
if a page fetch fails (with a non-retryable error or by exhausting the
retry budget), the whole operation aborts: no account list is returned,
the failing fetch's error is propagated unchanged to the caller, and no
further page is fetched (the failing, last cursor has no matching page, so
the successful pages number one fewer than the fetches). -/
theorem listing_failure_aborts_whole_operation :
    (∀ (fetch : String → String → Nat → Nat → Except GoError GraphGetFollows_Output) (did : String)
      (fuel : Nat) (e : GoError),
      (following fetch did fuel).result = some (.error e) →
      (∀ accs : List Account, (following fetch did fuel).result ≠ some (.ok accs)) ∧
      ∃ cl, (following fetch did fuel).cursors.getLast? = some cl ∧
        (retryWithBackoff (fun attempt => fetch did cl 100 attempt)
          ("GraphGetFollows page " ++
            toString ((following fetch did fuel).cursors.length))).result = .error e ∧
        (following fetch did fuel).pages.length + 1 = (following fetch did fuel).cursors.length) ∧
    (∀ (fetch : String → String → Nat → Nat → Except GoError GraphGetFollowers_Output) (did : String)
      (fuel : Nat) (e : GoError),
      (followers fetch did fuel).result = some (.error e) →
      (∀ accs : List Account, (followers fetch did fuel).result ≠ some (.ok accs)) ∧
      ∃ cl, (followers fetch did fuel).cursors.getLast? = some cl ∧
        (retryWithBackoff (fun attempt => fetch did cl 100 attempt)
          ("GraphGetFollowers page " ++
            toString ((followers fetch did fuel).cursors.length))).result = .error e ∧
        (followers fetch did fuel).pages.length + 1 = (followers fetch did fuel).cursors.length) ∧
    (∀ (fetch : String → Nat → Nat → Except GoError GraphGetMutes_Output) (did : String)
      (fuel : Nat) (e : GoError),
      (muted fetch did fuel).result = some (.error e) →
      (∀ accs : List Account, (muted fetch did fuel).result ≠ some (.ok accs)) ∧
      ∃ cl, (muted fetch did fuel).cursors.getLast? = some cl ∧
        (retryWithBackoff (fun attempt => fetch cl 100 attempt)
          ("GraphGetMutes page " ++
            toString ((muted fetch did fuel).cursors.length))).result = .error e ∧
        (muted fetch did fuel).pages.length + 1 = (muted fetch did fuel).cursors.length) ∧
    (∀ (fetch : String → Nat → Nat → Except GoError GraphGetBlocks_Output) (did : String)
      (fuel : Nat) (e : GoError),
      (blocked fetch did fuel).result = some (.error e) →
      (∀ accs : List Account, (blocked fetch did fuel).result ≠ some (.ok accs)) ∧
      ∃ cl, (blocked fetch did fuel).cursors.getLast? = some cl ∧
        (retryWithBackoff (fun attempt => fetch cl 100 attempt)
          ("GraphGetBlocks page " ++
            toString ((blocked fetch did fuel).cursors.length))).result = .error e ∧
        (blocked fetch did fuel).pages.length + 1 = (blocked fetch did fuel).cursors.length) := by
  refine ⟨?_, ?_, ?_, ?_⟩
  · intro fetch did fuel e h
    constructor
    · intro accs hcontra
      rw [h] at hcontra
      simp at hcontra
    · obtain ⟨cl, h1, h2, h3⟩ := followingLoop_error_propagates fetch did fuel 1 "" [] e
        (by simpa [following] using h)
      refine ⟨cl, ?_, ?_, ?_⟩
      · simpa [following] using h1
      · have hpos : 0 < (followingLoop fetch did fuel 1 "" []).cursors.length := by
          cases hc2 : (followingLoop fetch did fuel 1 "" []).cursors with
          | nil => rw [hc2] at h1; simp at h1
          | cons x xs => simp [hc2]
        have harg : 1 + ((followingLoop fetch did fuel 1 "" []).cursors.length - 1) =
            (followingLoop fetch did fuel 1 "" []).cursors.length := by omega
        rw [harg] at h2
        simpa [following] using h2
      · simpa [following] using h3
  · intro fetch did fuel e h
    constructor
    · intro accs hcontra
      rw [h] at hcontra
      simp at hcontra
    · obtain ⟨cl, h1, h2, h3⟩ := followersLoop_error_propagates fetch did fuel 1 "" [] e
        (by simpa [followers] using h)
      refine ⟨cl, ?_, ?_, ?_⟩
      · simpa [followers] using h1
      · have hpos : 0 < (followersLoop fetch did fuel 1 "" []).cursors.length := by
          cases hc2 : (followersLoop fetch did fuel 1 "" []).cursors with
          | nil => rw [hc2] at h1; simp at h1
          | cons x xs => simp [hc2]
        have harg : 1 + ((followersLoop fetch did fuel 1 "" []).cursors.length - 1) =
            (followersLoop fetch did fuel 1 "" []).cursors.length := by omega
        rw [harg] at h2
        simpa [followers] using h2
      · simpa [followers] using h3
  · intro fetch did fuel e h
    constructor
    · intro accs hcontra
      rw [h] at hcontra
      simp at hcontra
    · obtain ⟨cl, h1, h2, h3⟩ := mutedLoop_error_propagates fetch fuel 1 "" [] e
        (by simpa [muted] using h)
      refine ⟨cl, ?_, ?_, ?_⟩
      · simpa [muted] using h1
      · have hpos : 0 < (mutedLoop fetch fuel 1 "" []).cursors.length := by
          cases hc2 : (mutedLoop fetch fuel 1 "" []).cursors with
          | nil => rw [hc2] at h1; simp at h1
          | cons x xs => simp [hc2]
        have harg : 1 + ((mutedLoop fetch fuel 1 "" []).cursors.length - 1) =
            (mutedLoop fetch fuel 1 "" []).cursors.length := by omega
        rw [harg] at h2
        simpa [muted] using h2
      · simpa [muted] using h3
  · intro fetch did fuel e h
    constructor
    · intro accs hcontra
      rw [h] at hcontra
      simp at hcontra
    · obtain ⟨cl, h1, h2, h3⟩ := blockedLoop_error_propagates fetch fuel 1 "" [] e
        (by simpa [blocked] using h)
      refine ⟨cl, ?_, ?_, ?_⟩
      · simpa [blocked] using h1
      · have hpos : 0 < (blockedLoop fetch fuel 1 "" []).cursors.length := by
          cases hc2 : (blockedLoop fetch fuel 1 "" []).cursors with
          | nil => rw [hc2] at h1; simp at h1
          | cons x xs => simp [hc2]
        have harg : 1 + ((blockedLoop fetch fuel 1 "" []).cursors.length - 1) =
            (blockedLoop fetch fuel 1 "" []).cursors.length := by omega
        rw [harg] at h2
        simpa [blocked] using h2
      · simpa [blocked] using h3

/-- Witness for C7, one concrete instance per listing operation: a run
whose second page fetch fails with a non-429 error returns that error, one
successful page and two cursors, in all four instantiations. -/
theorem listing_failure_aborts_whole_operation_witness :
    ((∀ accs : List Account,
      (following
        (fun _ cur _ _ =>
          if cur = "" then .ok ⟨[Account.mk "d1" "h1"], some "t1"⟩
          else .error (.other "boom")) "me" 5).result ≠ some (.ok accs)) ∧
    ∃ cl, (following
        (fun _ cur _ _ =>
          if cur = "" then .ok ⟨[Account.mk "d1" "h1"], some "t1"⟩
          else .error (.other "boom")) "me" 5).cursors.getLast? = some cl ∧
      (retryWithBackoff
        (fun _ =>
          if cl = "" then (.ok ⟨[Account.mk "d1" "h1"], some "t1"⟩ :
              Except GoError GraphGetFollows_Output)
            else .error (.other "boom"))
        ("GraphGetFollows page " ++
          toString ((following
        (fun _ cur _ _ =>
          if cur = "" then .ok ⟨[Account.mk "d1" "h1"], some "t1"⟩
          else .error (.other "boom")) "me" 5).cursors.length))).result =
        .error (.other "boom") ∧
      (following
        (fun _ cur _ _ =>
          if cur = "" then .ok ⟨[Account.mk "d1" "h1"], some "t1"⟩
          else .error (.other "boom")) "me" 5).pages.length + 1 =
        (following
        (fun _ cur _ _ =>
          if cur = "" then .ok ⟨[Account.mk "d1" "h1"], some "t1"⟩
          else .error (.other "boom")) "me" 5).cursors.length) ∧
    ((∀ accs : List Account,
      (followers
        (fun _ cur _ _ =>
          if cur = "" then .ok ⟨[Account.mk "d1" "h1"], some "t1"⟩
          else .error (.other "boom")) "me" 5).result ≠ some (.ok accs)) ∧
    ∃ cl, (followers
        (fun _ cur _ _ =>
          if cur = "" then .ok ⟨[Account.mk "d1" "h1"], some "t1"⟩
          else .error (.other "boom")) "me" 5).cursors.getLast? = some cl ∧
      (retryWithBackoff
        (fun _ =>
          if cl = "" then (.ok ⟨[Account.mk "d1" "h1"], some "t1"⟩ :
              Except GoError GraphGetFollowers_Output)
            else .error (.other "boom"))
        ("GraphGetFollowers page " ++
          toString ((followers
        (fun _ cur _ _ =>
          if cur = "" then .ok ⟨[Account.mk "d1" "h1"], some "t1"⟩
          else .error (.other "boom")) "me" 5).cursors.length))).result =
        .error (.other "boom") ∧
      (followers
        (fun _ cur _ _ =>
          if cur = "" then .ok ⟨[Account.mk "d1" "h1"], some "t1"⟩
          else .error (.other "boom")) "me" 5).pages.length + 1 =
        (followers
        (fun _ cur _ _ =>
          if cur = "" then .ok ⟨[Account.mk "d1" "h1"], some "t1"⟩
          else .error (.other "boom")) "me" 5).cursors.length) ∧
    ((∀ accs : List Account,
      (muted
        (fun cur _ _ =>
          if cur = "" then .ok ⟨[Account.mk "d1" "h1"], some "t1"⟩
          else .error (.other "boom")) "me" 5).result ≠ some (.ok accs)) ∧
    ∃ cl, (muted
        (fun cur _ _ =>
          if cur = "" then .ok ⟨[Account.mk "d1" "h1"], some "t1"⟩
          else .error (.other "boom")) "me" 5).cursors.getLast? = some cl ∧
      (retryWithBackoff
        (fun _ =>
          if cl = "" then (.ok ⟨[Account.mk "d1" "h1"], some "t1"⟩ :
              Except GoError GraphGetMutes_Output)
            else .error (.other "boom"))
        ("GraphGetMutes page " ++
          toString ((muted
        (fun cur _ _ =>
          if cur = "" then .ok ⟨[Account.mk "d1" "h1"], some "t1"⟩
          else .error (.other "boom")) "me" 5).cursors.length))).result =
        .error (.other "boom") ∧
      (muted
        (fun cur _ _ =>
          if cur = "" then .ok ⟨[Account.mk "d1" "h1"], some "t1"⟩
          else .error (.other "boom")) "me" 5).pages.length + 1 =
        (muted
        (fun cur _ _ =>
          if cur = "" then .ok ⟨[Account.mk "d1" "h1"], some "t1"⟩
          else .error (.other "boom")) "me" 5).cursors.length) ∧
    ((∀ accs : List Account,
      (blocked
        (fun cur _ _ =>
          if cur = "" then .ok ⟨[Account.mk "d1" "h1"], some "t1"⟩
          else .error (.other "boom")) "me" 5).result ≠ some (.ok accs)) ∧
    ∃ cl, (blocked
        (fun cur _ _ =>
          if cur = "" then .ok ⟨[Account.mk "d1" "h1"], some "t1"⟩
          else .error (.other "boom")) "me" 5).cursors.getLast? = some cl ∧
      (retryWithBackoff
        (fun _ =>
          if cl = "" then (.ok ⟨[Account.mk "d1" "h1"], some "t1"⟩ :
              Except GoError GraphGetBlocks_Output)
            else .error (.other "boom"))
        ("GraphGetBlocks page " ++
          toString ((blocked
        (fun cur _ _ =>
          if cur = "" then .ok ⟨[Account.mk "d1" "h1"], some "t1"⟩
          else .error (.other "boom")) "me" 5).cursors.length))).result =
        .error (.other "boom") ∧
      (blocked
        (fun cur _ _ =>
          if cur = "" then .ok ⟨[Account.mk "d1" "h1"], some "t1"⟩
          else .error (.other "boom")) "me" 5).pages.length + 1 =
        (blocked
        (fun cur _ _ =>
          if cur = "" then .ok ⟨[Account.mk "d1" "h1"], some "t1"⟩
          else .error (.other "boom")) "me" 5).cursors.length) :=
  ⟨listing_failure_aborts_whole_operation.1
      (fun _ cur _ _ =>
        if cur = "" then .ok ⟨[Account.mk "d1" "h1"], some "t1"⟩
        else .error (.other "boom"))
      "me" 5 (.other "boom") (by decide),
    listing_failure_aborts_whole_operation.2.1
      (fun _ cur _ _ =>
        if cur = "" then .ok ⟨[Account.mk "d1" "h1"], some "t1"⟩
        else .error (.other "boom"))
      "me" 5 (.other "boom") (by decide),
    listing_failure_aborts_whole_operation.2.2.1
      (fun cur _ _ =>
        if cur = "" then .ok ⟨[Account.mk "d1" "h1"], some "t1"⟩
        else .error (.other "boom"))
      "me" 5 (.other "boom") (by decide),
    listing_failure_aborts_whole_operation.2.2.2
      (fun cur _ _ =>
        if cur = "" then .ok ⟨[Account.mk "d1" "h1"], some "t1"⟩
        else .error (.other "boom"))
      "me" 5 (.other "boom") (by decide)⟩
